import Mathlib

/-!
Verification of the SportSee chart-hook layer, shallowly embedded from
`src/services/chartHooks.js` (the score coalescing also appears verbatim in
`src/components/charts/ScoreChart.jsx`). JS numbers are modelled as
rationals, absent object fields as `Option`, and JS truthiness is made
explicit wherever the source relies on it. Stateful hook behaviour is
modelled as explicit state passing; the effect/cleanup lifecycle of a hook
instance is a step relation on an explicit binding state.
-/

namespace SportSee

/-- Published state of a chart hook: the JS object `{data, loading, error}`
initialised by `useState` in every hook of `chartHooks.js`. -/
structure HookState (α : Type) where
  data : Option α
  loading : Bool
  error : Option String
  deriving Repr, DecidableEq

/-- Initial `useState` value in every hook: `{data: null, loading: true, error: null}`. -/
def initialChartState (α : Type) : HookState α := ⟨none, true, none⟩

/-- Raw user payload as consumed by `useScoreChart`: the two legacy score
fields; a field not present in the JSON is `none`. -/
structure RawUser where
  todayScore : Option ℚ
  score : Option ℚ
  deriving Repr, DecidableEq

/-- JS `a || b` for an optional numeric left operand: `a` wins iff it is
present and truthy, i.e. nonzero. -/
def jsOrNum (a : Option ℚ) (b : ℚ) : ℚ :=
  match a with
  | some x => if x = 0 then b else x
  | none => b

/-- Goal-score coalescing of `useScoreChart` (`chartHooks.js` line 429) and
`ScoreChart.jsx` line 60: `rawData?.todayScore || rawData?.score || 0`. -/
def scoreOf (rawData : Option RawUser) : ℚ :=
  jsOrNum (rawData.bind RawUser.todayScore) (jsOrNum (rawData.bind RawUser.score) 0)

/-- JS `Math.round`: round half toward positive infinity. -/
def jsRound (x : ℚ) : Int := ⌊x + 1/2⌋

/-- Percentage computed by `useScoreChart` (line 430) from a score value:
`Math.round(score * 100)`. -/
def percentageOfScore (s : ℚ) : Int := jsRound (s * 100)

/-- Published percentage of `useScoreChart` for a raw user payload. -/
def scorePercentage (rawData : Option RawUser) : Int := percentageOfScore (scoreOf rawData)

/-- Follows the words of the spec (for comparison with `scoreOf`):
first-present-wins coalescing `raw.todayScore ?? raw.score ?? 0`. -/
def specGoalScore (rawData : Option RawUser) : ℚ :=
  (rawData.bind RawUser.todayScore).getD ((rawData.bind RawUser.score).getD 0)

/-- Follows the words of the spec (for comparison with `percentageOfScore`):
`round(score * 100)` clamped to `[0, 100]`. -/
def specClampedPercentage (s : ℚ) : Int := min 100 (max 0 (jsRound (s * 100)))

/-- C1 counterexample: on the payload `{todayScore: 0, score: 0.5}` the code
computes goal score `0.5` (the JS `||` skips the falsy `0`), while
first-present-wins coalescing `todayScore ?? score ?? 0` demands `0`. -/
theorem C1_counterexample_todayScore_zero :
    scoreOf (some ⟨some 0, some (1/2)⟩) ≠ specGoalScore (some ⟨some 0, some (1/2)⟩) := by
  norm_num [scoreOf, jsOrNum, specGoalScore]

/-- C1 (amended): the goal score used by `useScoreChart` is first-TRUTHY-wins,
`todayScore || score || 0`: `todayScore` is used when present and nonzero,
otherwise `score` when present and nonzero, otherwise `0`; the computation is
a total function (never throws). -/
theorem C1_goal_score_first_truthy_wins (rawData : Option RawUser) :
    (∀ t, rawData.bind RawUser.todayScore = some t → t ≠ 0 → scoreOf rawData = t) ∧
    ((rawData.bind RawUser.todayScore = none ∨ rawData.bind RawUser.todayScore = some 0) →
      ∀ u, rawData.bind RawUser.score = some u → u ≠ 0 → scoreOf rawData = u) ∧
    ((rawData.bind RawUser.todayScore = none ∨ rawData.bind RawUser.todayScore = some 0) →
      (rawData.bind RawUser.score = none ∨ rawData.bind RawUser.score = some 0) →
      scoreOf rawData = 0) := by
  refine ⟨?_, ?_, ?_⟩
  · intro t ht hne
    simp [scoreOf, ht, jsOrNum, hne]
  · rintro (h | h) u hu hne <;> simp [scoreOf, h, hu, jsOrNum, hne]
  · rintro (h | h) (h2 | h2) <;> simp [scoreOf, h, h2, jsOrNum]

/-- C1 witness: applying the amended theorem at `{todayScore: 0, score: 0.5}`. -/
theorem C1_goal_score_witness : scoreOf (some ⟨some 0, some (1/2)⟩) = 1/2 :=
  (C1_goal_score_first_truthy_wins (some ⟨some 0, some (1/2)⟩)).2.1
    (Or.inr rfl) (1/2) rfl (by norm_num)

/-- C7 counterexample: at score `1.5` the published percentage is `150`,
not the claimed clamped value `100` — the code never clamps. -/
theorem C7_counterexample_no_clamping :
    percentageOfScore (3/2) ≠ specClampedPercentage (3/2) := by
  have hfl : (⌊(3 : ℚ)/2 * 100 + 1/2⌋ : Int) = 150 := by
    rw [Int.floor_eq_iff] <;> norm_num
  have h1 : percentageOfScore (3/2) = 150 := hfl
  have h2 : specClampedPercentage (3/2) = 100 := by
    simp only [specClampedPercentage, jsRound, hfl]
    norm_num
  rw [h1, h2]
  norm_num

/-- C7 (amended): the published percentage is `round(score * 100)` with no
clamping; it coincides with the clamped value whenever the score lies in
`[0, 1]`, and in particular score `0.3` yields `30`, `0` yields `0`, and `1`
yields `100`. -/
theorem C7_percentage_round_unclamped (s : ℚ) :
    percentageOfScore s = ⌊s * 100 + 1/2⌋ ∧
    (0 ≤ s → s ≤ 1 → specClampedPercentage s = percentageOfScore s) ∧
    percentageOfScore (3/10) = 30 ∧ percentageOfScore 0 = 0 ∧ percentageOfScore 1 = 100 := by
  refine ⟨rfl, ?_, ?_, ?_, ?_⟩
  · intro h0 h1
    have lo : (0 : Int) ≤ ⌊s * 100 + 1/2⌋ := Int.floor_nonneg.mpr (by linarith)
    have key : s * 100 + 1/2 ≤ (201 : ℚ)/2 := by linarith
    have h201 : (⌊(201 : ℚ)/2⌋ : Int) = 100 := by
      rw [Int.floor_eq_iff] <;> norm_num
    have hi : (⌊s * 100 + 1/2⌋ : Int) ≤ 100 := h201 ▸ Int.floor_le_floor key
    show min 100 (max 0 ⌊s * 100 + 1/2⌋) = ⌊s * 100 + 1/2⌋
    rw [max_eq_right lo, min_eq_right hi]
  · show (⌊(3 : ℚ)/10 * 100 + 1/2⌋ : Int) = 30
    rw [Int.floor_eq_iff] <;> norm_num
  · show (⌊(0 : ℚ) * 100 + 1/2⌋ : Int) = 0
    rw [Int.floor_eq_iff] <;> norm_num
  · show (⌊(1 : ℚ) * 100 + 1/2⌋ : Int) = 100
    rw [Int.floor_eq_iff] <;> norm_num

/-- C7 witness: applying the amended theorem at score `0.3`. -/
theorem C7_percentage_witness :
    specClampedPercentage (3/10) = percentageOfScore (3/10) ∧ percentageOfScore (3/10) = 30 :=
  ⟨(C7_percentage_round_unclamped (3/10)).2.1 (by norm_num) (by norm_num),
    (C7_percentage_round_unclamped (3/10)).2.2.1⟩

/-- Raw average-sessions entry `{day, sessionLength}` as delivered to
`useSessionsChart` by the Gateway. -/
structure RawSession where
  day : Nat
  sessionLength : ℚ
  deriving Repr, DecidableEq

/-- Formatted session point built by `useSessionsChart` (lines 193-221).
Real points carry no `isGhost` field in JS; an absent field is falsy, so it
is modelled as `false`. -/
structure SessionPoint where
  day : Nat
  dayIndex : Nat
  sessionLength : ℚ
  isReal : Bool
  isGhost : Bool
  deriving Repr, DecidableEq

/-- Mapping of one raw session to a real chart point (lines 193-198). -/
def toRealPoint (s : RawSession) : SessionPoint :=
  { day := s.day, dayIndex := s.day, sessionLength := s.sessionLength,
    isReal := true, isGhost := false }

/-- `rawData.sessions.map(...)` of `useSessionsChart`. -/
def realSessionsOf (sessions : List RawSession) : List SessionPoint :=
  sessions.map toRealPoint

/-- Ghost-point construction of `useSessionsChart` (lines 200-222): prepend a
day-0 copy of the first real point and append a day-8 copy of the last real
point, both flagged `isGhost`. On an empty input the JS code dereferences
`realSessions[0].sessionLength` of `undefined` and throws; that is `none`. -/
def addGhostPoints (realSessions : List SessionPoint) : Option (List SessionPoint) :=
  match realSessions with
  | [] => none
  | first :: rest =>
    some ({ day := 0, dayIndex := 0, sessionLength := first.sessionLength,
            isReal := false, isGhost := true }
      :: (first :: rest)
      ++ [{ day := 8, dayIndex := 8,
            sessionLength := ((first :: rest).getLast (List.cons_ne_nil _ _)).sessionLength,
            isReal := false, isGhost := true }])

/-- Modelled from the spec: `normalizeSessions` belongs to the
DataService/Normalizer layer of the repository, which is not among the
provided source files (only its caller `useSessionsChart` is). Per the spec
it builds a map keyed by weekday from the input (last occurrence wins on a
duplicate weekday) and emits weekdays 1..7 in order, substituting duration 0
for any missing weekday. -/
def normalizeSessions (raw : List RawSession) : List RawSession :=
  (List.range 7).map (fun i =>
    match raw.reverse.find? (fun s => s.day == i + 1) with
    | some s => { day := i + 1, sessionLength := s.sessionLength }
    | none => { day := i + 1, sessionLength := 0 })

/-- C2: for any input whose weekdays lie in 1..7, the non-ghost session
sequence delivered to the chart has exactly 7 entries, with weekdays
strictly ascending 1..7, and every weekday absent from the input carries
duration 0. -/
theorem C2_seven_ascending_weekdays_with_zero_fill (raw : List RawSession)
    (_hdays : ∀ s ∈ raw, 1 ≤ s.day ∧ s.day ≤ 7) :
    (realSessionsOf (normalizeSessions raw)).length = 7 ∧
    (∀ i (h : i < (realSessionsOf (normalizeSessions raw)).length),
      ((realSessionsOf (normalizeSessions raw)).get ⟨i, h⟩).day = i + 1) ∧
    (∀ d, 1 ≤ d → d ≤ 7 → (∀ s ∈ raw, s.day ≠ d) →
      ∀ p ∈ realSessionsOf (normalizeSessions raw), p.day = d → p.sessionLength = 0) := by
  refine ⟨by simp [realSessionsOf, normalizeSessions], ?_, ?_⟩
  · intro i h
    simp only [realSessionsOf, normalizeSessions, List.get_eq_getElem, List.getElem_map,
      List.getElem_range]
    cases raw.reverse.find? (fun s => s.day == i + 1) <;> simp [toRealPoint]
  · intro d h1 h7 habsent p hp hpd
    simp only [realSessionsOf, normalizeSessions, List.mem_map, List.mem_range] at hp
    obtain ⟨q, ⟨i, hi, hq⟩, hqp⟩ := hp
    have hfind : raw.reverse.find? (fun s => s.day == i + 1) = none ∨ i + 1 = d → True :=
      fun _ => trivial
    by_cases hd : i + 1 = d
    · have : raw.reverse.find? (fun s => s.day == i + 1) = none := by
        apply List.find?_eq_none.mpr
        intro s hs
        have : s.day ≠ d := habsent s (List.mem_reverse.mp hs)
        simp [hd, this]
      rw [this] at hq
      rw [← hqp, ← hq]
      rfl
    · exfalso
      apply hd
      rw [← hpd, ← hqp]
      cases hfd : raw.reverse.find? (fun s => s.day == i + 1) <;>
        rw [hfd] at hq <;> rw [← hq] <;> rfl

/-- C2 witness: applying the theorem to the input `[{day:1, sessionLength:30},
{day:3, sessionLength:45}]`, where weekday 2 is absent. -/
theorem C2_witness :
    (realSessionsOf (normalizeSessions [⟨1, 30⟩, ⟨3, 45⟩])).length = 7 ∧
    (∀ p ∈ realSessionsOf (normalizeSessions [⟨1, 30⟩, ⟨3, 45⟩]), p.day = 2 →
      p.sessionLength = 0) :=
  ⟨(C2_seven_ascending_weekdays_with_zero_fill [⟨1, 30⟩, ⟨3, 45⟩] (by decide)).1,
    fun p hp hpd =>
      (C2_seven_ascending_weekdays_with_zero_fill [⟨1, 30⟩, ⟨3, 45⟩] (by decide)).2.2
        2 (by decide) (by decide) (by decide) p hp hpd⟩

/-- C4: on a 7-entry canonical sequence the ghost-point transformation yields
exactly 9 entries; entry 0 copies the duration of entry 1 and entry 8 copies
the duration of entry 7; entries 0 and 8 are flagged as ghosts and no other
entry is. -/
theorem C4_ghost_points_nine_entries (raw : List RawSession) (h7 : raw.length = 7) :
    ∃ ys, addGhostPoints (realSessionsOf raw) = some ys ∧ ys.length = 9 ∧
      ys[0]?.map SessionPoint.sessionLength = ys[1]?.map SessionPoint.sessionLength ∧
      ys[8]?.map SessionPoint.sessionLength = ys[7]?.map SessionPoint.sessionLength ∧
      ys[0]?.map SessionPoint.isGhost = some true ∧
      ys[8]?.map SessionPoint.isGhost = some true ∧
      (∀ i, 1 ≤ i → i ≤ 7 → ys[i]?.map SessionPoint.isGhost = some false) := by
  rcases raw with _ | ⟨a, _ | ⟨b, _ | ⟨c, _ | ⟨d, _ | ⟨e, _ | ⟨f, _ | ⟨g, _ | ⟨h, t⟩⟩⟩⟩⟩⟩⟩⟩ <;>
    simp only [List.length_nil, List.length_cons] at h7 <;> try omega
  refine ⟨_, rfl, rfl, rfl, rfl, rfl, rfl, ?_⟩
  intro i hi1 hi7
  interval_cases i <;> rfl

/-- C4 witness: applying the theorem to a concrete 7-entry canonical week. -/
theorem C4_witness :
    ∃ ys,
      addGhostPoints
        (realSessionsOf
          [⟨1, 45⟩, ⟨2, 35⟩, ⟨3, 50⟩, ⟨4, 40⟩, ⟨5, 60⟩, ⟨6, 0⟩, ⟨7, 70⟩]) = some ys ∧
      ys.length = 9 ∧
      ys[0]?.map SessionPoint.sessionLength = ys[1]?.map SessionPoint.sessionLength ∧
      ys[8]?.map SessionPoint.sessionLength = ys[7]?.map SessionPoint.sessionLength ∧
      ys[0]?.map SessionPoint.isGhost = some true ∧
      ys[8]?.map SessionPoint.isGhost = some true ∧
      (∀ i, 1 ≤ i → i ≤ 7 → ys[i]?.map SessionPoint.isGhost = some false) :=
  C4_ghost_points_nine_entries
    [⟨1, 45⟩, ⟨2, 35⟩, ⟨3, 50⟩, ⟨4, 40⟩, ⟨5, 60⟩, ⟨6, 0⟩, ⟨7, 70⟩] rfl

/-- Raw performance entry `{value, kind}` where `kind` is a numeric id. -/
structure PerfEntry where
  value : ℚ
  kind : Nat
  deriving Repr, DecidableEq

/-- Radar chart point `{subject, value, fullMark}` built by
`usePerformanceChart`. -/
structure PerfPoint where
  subject : String
  value : ℚ
  fullMark : ℚ
  deriving Repr, DecidableEq

/-- The `kindTranslations` object of `usePerformanceChart` (lines 313-320);
indexing with a label absent from the object yields `undefined`, i.e. `none`. -/
def kindTranslations : String → Option String
  | "cardio" => some "Cardio"
  | "energy" => some "Énergie"
  | "endurance" => some "Endurance"
  | "strength" => some "Force"
  | "speed" => some "Vitesse"
  | "intensity" => some "Intensité"
  | _ => none

/-- The fixed display-order array of `usePerformanceChart` (lines 323-329). -/
def frenchOrder : List String :=
  ["Intensité", "Vitesse", "Force", "Endurance", "Énergie", "Cardio"]

/-- JS object property read `rawData.kind[id]` on the id-to-label mapping. -/
def lookupKind (kind : List (Nat × String)) (id : Nat) : Option String :=
  (kind.find? (fun p => p.1 == id)).map Prod.snd

/-- Resolution `kindTranslations[rawData.kind[d.kind]]` for one data entry. -/
def resolvedLabel (kind : List (Nat × String)) (d : PerfEntry) : Option String :=
  (lookupKind kind d.kind).bind kindTranslations

/-- The `orderedData` projection of `usePerformanceChart` (lines 323-339):
for each display label take the first matching data entry, else value 0. -/
def orderedPerformance (kind : List (Nat × String)) (data : List PerfEntry) : List PerfPoint :=
  frenchOrder.map (fun frenchName =>
    match data.find? (fun d => resolvedLabel kind d == some frenchName) with
    | some item => { subject := frenchName, value := item.value, fullMark := 250 }
    | none => { subject := frenchName, value := 0, fullMark := 250 })

/-- C5: the radar projection always has exactly six entries, whose subjects
are the fixed display sequence Intensité, Vitesse, Force, Endurance,
Énergie, Cardio for every input (hence independent of input order); every
entry carries `fullMark = 250`; and an entry whose category matches no data
entry has value 0. -/
theorem C5_six_fixed_categories (kind : List (Nat × String)) (data : List PerfEntry) :
    (orderedPerformance kind data).length = 6 ∧
    (orderedPerformance kind data).map PerfPoint.subject = frenchOrder ∧
    (∀ p ∈ orderedPerformance kind data, p.fullMark = 250) ∧
    (∀ p ∈ orderedPerformance kind data,
      (∀ d ∈ data, resolvedLabel kind d ≠ some p.subject) → p.value = 0) := by
  have hsub : ∀ fn,
      (match data.find? (fun d => resolvedLabel kind d == some fn) with
        | some item => ({ subject := fn, value := item.value, fullMark := 250 } : PerfPoint)
        | none => { subject := fn, value := 0, fullMark := 250 }).subject = fn := by
    intro fn
    cases data.find? (fun d => resolvedLabel kind d == some fn) <;> rfl
  refine ⟨by simp [orderedPerformance, frenchOrder], ?_, ?_, ?_⟩
  · simp only [orderedPerformance, frenchOrder, List.map_cons, List.map_nil]
    simp [hsub]
  · intro p hp
    simp only [orderedPerformance, List.mem_map] at hp
    obtain ⟨fn, _, hfn⟩ := hp
    rw [← hfn]
    cases data.find? (fun d => resolvedLabel kind d == some fn) <;> rfl
  · intro p hp hnomatch
    simp only [orderedPerformance, List.mem_map] at hp
    obtain ⟨fn, _, hfn⟩ := hp
    have hfind : data.find? (fun d => resolvedLabel kind d == some fn) = none := by
      apply List.find?_eq_none.mpr
      intro d hd
      have hsubj : p.subject = fn := by rw [← hfn]; exact hsub fn
      have := hnomatch d hd
      rw [hsubj] at this
      simp [this]
    rw [← hfn, hfind]

/-- C5 witness: applying the theorem to a concrete input given in reverse
canonical order with the speed category absent. -/
theorem C5_witness :
    (orderedPerformance [(1, "cardio"), (2, "energy"), (3, "endurance"), (4, "strength"),
        (6, "intensity")]
      [⟨80, 1⟩, ⟨120, 2⟩, ⟨140, 3⟩, ⟨50, 4⟩, ⟨110, 6⟩]).map PerfPoint.subject = frenchOrder ∧
    (∀ p ∈ orderedPerformance [(1, "cardio"), (2, "energy"), (3, "endurance"), (4, "strength"),
        (6, "intensity")]
      [⟨80, 1⟩, ⟨120, 2⟩, ⟨140, 3⟩, ⟨50, 4⟩, ⟨110, 6⟩], p.subject = "Vitesse" → p.value = 0) := by
  refine ⟨(C5_six_fixed_categories _ _).2.1, ?_⟩
  intro p hp hpsub
  apply (C5_six_fixed_categories _ _).2.2.2 p hp
  intro d hd
  rw [hpsub]
  fin_cases hd <;> decide

/-- C6 counterexample: with mapping `{1: "cardio"}` and data
`[{value:50, kind:1}, {value:42, kind:99}]`, the id 99 is absent from the
mapping; the output contains no "unknown" label and the value 42 of that
entry appears nowhere — the entry is dropped, contrary to the claim. -/
theorem C6_counterexample_unknown_id_dropped :
    orderedPerformance [(1, "cardio")] [⟨50, 1⟩, ⟨42, 99⟩] =
      [⟨"Intensité", 0, 250⟩, ⟨"Vitesse", 0, 250⟩, ⟨"Force", 0, 250⟩,
        ⟨"Endurance", 0, 250⟩, ⟨"Énergie", 0, 250⟩, ⟨"Cardio", 50, 250⟩] ∧
    (∀ p ∈ orderedPerformance [(1, "cardio")] [⟨50, 1⟩, ⟨42, 99⟩],
      p.subject ≠ "unknown" ∧ p.value ≠ 42) := by
  refine ⟨by decide, by decide⟩

/-- Helper: a `find?` over a filtered list agrees with `find?` over the
original list when the filter keeps everything the predicate accepts. -/
theorem find?_filter_of_imp {α : Type} (l : List α) (p q : α → Bool)
    (himp : ∀ a, p a = true → q a = true) :
    (l.filter q).find? p = l.find? p := by
  induction l with
  | nil => rfl
  | cons a t ih =>
    rw [List.filter_cons]
    by_cases hp : p a = true
    · have hq := himp a hp
      simp [hq, List.find?_cons, hp]
    · by_cases hq : q a = true <;> simp [hq, List.find?_cons, hp, ih]

/-- C6 (amended): an entry whose kind id is absent from the id-to-label
mapping resolves to no label at all, so it can match none of the six fixed
categories and is effectively dropped: the output equals the output on the
input restricted to entries whose id resolves, and no sentinel "unknown"
label is ever emitted (the six fixed categories are always present). -/
theorem C6_unmapped_id_entry_is_dropped (kind : List (Nat × String)) (data : List PerfEntry) :
    orderedPerformance kind data =
      orderedPerformance kind (data.filter (fun d => (resolvedLabel kind d).isSome)) ∧
    (∀ p ∈ orderedPerformance kind data, p.subject ≠ "unknown") := by
  constructor
  · apply List.map_congr_left
    intro fn _
    rw [find?_filter_of_imp data _ _ ?_]
    intro d hd
    rcases hres : resolvedLabel kind d with _ | lbl
    · rw [hres] at hd
      simp at hd
    · simp
  · intro p hp
    simp only [orderedPerformance, List.mem_map] at hp
    obtain ⟨fn, hfnmem, hfn⟩ := hp
    have hne : fn ≠ "unknown" := by
      fin_cases hfnmem <;> decide
    rw [← hfn]
    cases data.find? (fun d => resolvedLabel kind d == some fn) <;> simpa using hne

/-- C6 amended-theorem witness: applying the theorem at the counterexample
input; the unmapped entry `{value:42, kind:99}` is filtered away with no
effect on the output. -/
theorem C6_witness :
    orderedPerformance [(1, "cardio")] [⟨50, 1⟩, ⟨42, 99⟩] =
      orderedPerformance [(1, "cardio")]
        (([⟨50, 1⟩, ⟨42, 99⟩] : List PerfEntry).filter
          (fun d => (resolvedLabel [(1, "cardio")] d).isSome)) :=
  (C6_unmapped_id_entry_is_dropped [(1, "cardio")] [⟨50, 1⟩, ⟨42, 99⟩]).1

/-- JS value passed as `userId`; the guard `if (!userId) return` at the top
of every hook effect treats `undefined`, `null` and `0` as falsy. -/
inductive JSUserId where
  | undef
  | null
  | num (n : Int)
  deriving Repr, DecidableEq

/-- JS truthiness of the `userId` argument. -/
def truthyUserId : JSUserId → Bool
  | .undef => false
  | .null => false
  | .num n => n != 0

/-- Outcome of an awaited Gateway call: a fulfilled payload or a thrown
error caught by the `catch` block. -/
inductive GatewayResult (α : Type) where
  | ok (payload : α)
  | thrown (msg : String)
  deriving Repr, DecidableEq

/-- Raw daily activity entry `{kilogram, calories}` (the date label is not
read by the hook). -/
structure RawActivitySession where
  kilogram : ℚ
  calories : ℚ
  deriving Repr, DecidableEq

/-- Raw activity payload; `sessions` may be absent (`none`). -/
structure RawActivity where
  sessions : Option (List RawActivitySession)
  deriving Repr, DecidableEq

/-- Formatted activity point built by `useActivityChart` (lines 96-101). -/
structure ActivityPoint where
  day : Nat
  kilogram : ℚ
  calories : ℚ
  displayDay : String
  deriving Repr, DecidableEq

/-- The `sessions.map((session, index) => ...)` projection of
`useActivityChart`: 1-based positional day index. -/
def formatActivity (sessions : List RawActivitySession) : List ActivityPoint :=
  sessions.enum.map (fun p =>
    { day := p.1 + 1, kilogram := p.2.kilogram, calories := p.2.calories,
      displayDay := toString (p.1 + 1) })

/-- Raw average-sessions payload; `sessions` may be absent. -/
structure RawSessions where
  sessions : Option (List RawSession)
  deriving Repr, DecidableEq

/-- Raw performance payload; `kind` and `data` may each be absent. -/
structure RawPerformance where
  kind : Option (List (Nat × String))
  data : Option (List PerfEntry)
  deriving Repr, DecidableEq

/-- The `setState(prev => ({...prev, loading: true, error: null}))` call at
the top of every `loadData`. -/
def startLoading {α : Type} (st : HookState α) : HookState α :=
  { st with loading := true, error := none }

/-- One run of the `useActivityChart` effect for a given previous state and
settled Gateway outcome; the boolean records whether the Gateway was
invoked. Guard, success path (lines 93-109) and catch (lines 110-118). -/
def runActivityEffect (userId : JSUserId) (prev : HookState (List ActivityPoint))
    (resp : GatewayResult (Option RawActivity)) :
    HookState (List ActivityPoint) × Bool :=
  if truthyUserId userId then
    match resp with
    | .thrown msg => (⟨none, false, some msg⟩, true)
    | .ok rawData =>
      match rawData.bind RawActivity.sessions with
      | some sess => (⟨some (formatActivity sess), false, none⟩, true)
      | none => (startLoading prev, true)
  else (prev, false)

/-- One run of the `useSessionsChart` effect. When `sessions` is present but
empty, the JS ghost construction dereferences a field of `undefined`; the
thrown TypeError is caught and published as an error. -/
def runSessionsEffect (userId : JSUserId) (prev : HookState (List SessionPoint))
    (resp : GatewayResult (Option RawSessions)) :
    HookState (List SessionPoint) × Bool :=
  if truthyUserId userId then
    match resp with
    | .thrown msg => (⟨none, false, some msg⟩, true)
    | .ok rawData =>
      match rawData.bind RawSessions.sessions with
      | some sess =>
        match addGhostPoints (realSessionsOf sess) with
        | some pts => (⟨some pts, false, none⟩, true)
        | none => (⟨none, false, some "TypeError"⟩, true)
      | none => (startLoading prev, true)
  else (prev, false)

/-- One run of the `usePerformanceChart` effect; the success branch requires
`rawData?.data && rawData?.kind` (line 312). -/
def runPerformanceEffect (userId : JSUserId) (prev : HookState (List PerfPoint))
    (resp : GatewayResult (Option RawPerformance)) :
    HookState (List PerfPoint) × Bool :=
  if truthyUserId userId then
    match resp with
    | .thrown msg => (⟨none, false, some msg⟩, true)
    | .ok rawData =>
      match rawData.bind RawPerformance.data, rawData.bind RawPerformance.kind with
      | some d, some k => (⟨some (orderedPerformance k d), false, none⟩, true)
      | _, _ => (startLoading prev, true)
  else (prev, false)

/-- One run of the `useScoreChart` effect; the success branch has no payload
shape check at all (lines 428-437). -/
def runScoreEffect (userId : JSUserId) (prev : HookState Int)
    (resp : GatewayResult (Option RawUser)) : HookState Int × Bool :=
  if truthyUserId userId then
    match resp with
    | .thrown msg => (⟨none, false, some msg⟩, true)
    | .ok rawData => (⟨some (scorePercentage rawData), false, none⟩, true)
  else (prev, false)

/-- C9: with a falsy `userId` (undefined, null or 0) every chart hook skips
the Gateway entirely and its published state stays at the initial
`{data: null, loading: true, error: null}`, whatever the Gateway would have
answered. -/
theorem C9_falsy_userId_never_fetches (userId : JSUserId)
    (hfalsy : truthyUserId userId = false)
    (respA : GatewayResult (Option RawActivity)) (respS : GatewayResult (Option RawSessions))
    (respP : GatewayResult (Option RawPerformance)) (respSc : GatewayResult (Option RawUser)) :
    runActivityEffect userId (initialChartState _) respA = (initialChartState _, false) ∧
    runSessionsEffect userId (initialChartState _) respS = (initialChartState _, false) ∧
    runPerformanceEffect userId (initialChartState _) respP = (initialChartState _, false) ∧
    runScoreEffect userId (initialChartState _) respSc = (initialChartState _, false) := by
  refine ⟨?_, ?_, ?_, ?_⟩ <;>
    simp [runActivityEffect, runSessionsEffect, runPerformanceEffect, runScoreEffect, hfalsy]

/-- C9 witness: applying the theorem at `userId = 0` against a Gateway that
would have answered with a network error. -/
theorem C9_witness :
    runActivityEffect (.num 0) (initialChartState _) (.thrown "Network Error") =
      (initialChartState _, false) ∧
    runSessionsEffect (.num 0) (initialChartState _) (.thrown "Network Error") =
      (initialChartState _, false) ∧
    runPerformanceEffect (.num 0) (initialChartState _) (.thrown "Network Error") =
      (initialChartState _, false) ∧
    runScoreEffect (.num 0) (initialChartState _) (.thrown "Network Error") =
      (initialChartState _, false) :=
  C9_falsy_userId_never_fetches (.num 0) (by decide) (.thrown "Network Error")
    (.thrown "Network Error") (.thrown "Network Error") (.thrown "Network Error")

/-- C10: when the Gateway call fulfills but the payload lacks the fields the
hook requires (no `sessions` array for the activity and sessions hooks; a
missing `data` or `kind` for the performance hook), the hook publishes
neither data nor error: the state keeps its previous data, `loading` is
left `true` and `error` is `null`, so no failure is ever surfaced. -/
theorem C10_malformed_success_stays_loading (userId : JSUserId)
    (htruthy : truthyUserId userId = true) :
    (∀ (prev : HookState (List ActivityPoint)) (rawData : Option RawActivity),
      rawData.bind RawActivity.sessions = none →
      runActivityEffect userId prev (.ok rawData) =
        ({ prev with loading := true, error := none }, true)) ∧
    (∀ (prev : HookState (List SessionPoint)) (rawData : Option RawSessions),
      rawData.bind RawSessions.sessions = none →
      runSessionsEffect userId prev (.ok rawData) =
        ({ prev with loading := true, error := none }, true)) ∧
    (∀ (prev : HookState (List PerfPoint)) (rawData : Option RawPerformance),
      rawData.bind RawPerformance.data = none ∨ rawData.bind RawPerformance.kind = none →
      runPerformanceEffect userId prev (.ok rawData) =
        ({ prev with loading := true, error := none }, true)) := by
  refine ⟨?_, ?_, ?_⟩
  · intro prev rawData hmiss
    simp [runActivityEffect, htruthy, hmiss, startLoading]
  · intro prev rawData hmiss
    simp [runSessionsEffect, htruthy, hmiss, startLoading]
  · intro prev rawData hmiss
    rcases hd : rawData.bind RawPerformance.data with _ | d
    · simp [runPerformanceEffect, htruthy, hd, startLoading]
    · rcases hk : rawData.bind RawPerformance.kind with _ | k
      · simp [runPerformanceEffect, htruthy, hd, hk, startLoading]
      · rcases hmiss with hmiss | hmiss
        · simp [hmiss] at hd
        · simp [hmiss] at hk

/-- C10 witness: applying the theorem at `userId = 18` with concrete
field-free payloads, from the initial state. -/
theorem C10_witness :
    runActivityEffect (.num 18) (initialChartState _) (.ok (some ⟨none⟩)) =
      (initialChartState _, true) ∧
    runSessionsEffect (.num 18) (initialChartState _) (.ok (some ⟨none⟩)) =
      (initialChartState _, true) ∧
    runPerformanceEffect (.num 18) (initialChartState _) (.ok (some ⟨some [], none⟩)) =
      (initialChartState _, true) :=
  ⟨(C10_malformed_success_stays_loading (.num 18) (by decide)).1
      (initialChartState _) (some ⟨none⟩) rfl,
    (C10_malformed_success_stays_loading (.num 18) (by decide)).2.1
      (initialChartState _) (some ⟨none⟩) rfl,
    (C10_malformed_success_stays_loading (.num 18) (by decide)).2.2
      (initialChartState _) (some ⟨some [], none⟩) (Or.inl rfl)⟩

/-- Per-chart error detail object returned by `useAllCharts`. -/
structure ChartErrors where
  activity : Option String
  sessions : Option String
  performance : Option String
  score : Option String
  deriving Repr, DecidableEq

/-- Combined dashboard state returned by `useAllCharts` (lines 540-553). -/
structure AllCharts where
  activity : Option (List ActivityPoint)
  sessions : Option (List SessionPoint)
  performance : Option (List PerfPoint)
  score : Option Int
  loading : Bool
  error : Option String
  errors : ChartErrors
  deriving Repr, DecidableEq

/-- JS truthiness of an error value: `null` is falsy, a string is falsy only
when empty. -/
def truthyErr : Option String → Bool
  | none => false
  | some s => s != ""

/-- JS `a || b` on error values. -/
def jsOrErr (a b : Option String) : Option String := if truthyErr a then a else b

/-- The `useAllCharts` aggregation (lines 525-554): data passthrough,
`loading` as the disjunction of the four loading flags, the published
`error` as the JS `||`-chain of the four errors, and the per-chart `errors`
object. -/
def useAllCharts (activity : HookState (List ActivityPoint))
    (sessions : HookState (List SessionPoint)) (performance : HookState (List PerfPoint))
    (score : HookState Int) : AllCharts :=
  { activity := activity.data
    sessions := sessions.data
    performance := performance.data
    score := score.data
    loading := activity.loading || sessions.loading || performance.loading || score.loading
    error := jsOrErr activity.error (jsOrErr sessions.error (jsOrErr performance.error score.error))
    errors := ⟨activity.error, sessions.error, performance.error, score.error⟩ }

/-- C8: the aggregator publishes `loading` as the disjunction of the four
per-chart loading flags; its aggregate error indicator is truthy exactly
when at least one per-chart error is truthy (the JS `||` of the four
errors); it exposes the per-chart errors object unchanged; and each chart
data slot is passed through from its own hook alone, so one chart failing
leaves the data of the other charts available. -/
theorem C8_aggregator_folds_independent_states (a : HookState (List ActivityPoint))
    (s : HookState (List SessionPoint)) (p : HookState (List PerfPoint))
    (sc : HookState Int) :
    (useAllCharts a s p sc).loading = (a.loading || s.loading || p.loading || sc.loading) ∧
    truthyErr (useAllCharts a s p sc).error =
      (truthyErr a.error || truthyErr s.error || truthyErr p.error || truthyErr sc.error) ∧
    (useAllCharts a s p sc).errors = ⟨a.error, s.error, p.error, sc.error⟩ ∧
    (useAllCharts a s p sc).activity = a.data ∧
    (useAllCharts a s p sc).sessions = s.data ∧
    (useAllCharts a s p sc).performance = p.data ∧
    (useAllCharts a s p sc).score = sc.data := by
  refine ⟨rfl, ?_, rfl, rfl, rfl, rfl, rfl⟩
  simp only [useAllCharts, jsOrErr]
  by_cases h1 : truthyErr a.error <;> by_cases h2 : truthyErr s.error <;>
    by_cases h3 : truthyErr p.error <;> simp [h1, h2, h3]

/-- Lifecycle state of one hook (binding) instance: the requests started so
far as pairs of request index and the current value of their `isCancelled`
closure flag, in start order; the index for the next request; and the
published hook state. The formatted payload is abstracted to an integer,
which is irrelevant to the staleness discipline under scrutiny. -/
structure BindingState where
  reqs : List (Nat × Bool)
  counter : Nat
  published : HookState Int
  deriving Repr, DecidableEq

/-- Effect-lifecycle events of one binding instance, matching the hook code
and the React ordering guarantee (cleanup of the previous effect runs
before the next effect body). `start`: the dependency changed — the old
closure sets its `isCancelled` to true, then the new effect allocates a
fresh flag at false, publishes loading and invokes the Gateway.
`teardown`: the consumer unmounts — cleanup only. `resolve id v`: the
awaited Gateway call of request `id` settles; its `setState` runs only if
its own `isCancelled` flag is still false (lines 93 and 104-108). -/
inductive BindingEvent where
  | start
  | teardown
  | resolve (id : Nat) (v : Int)
  deriving Repr, DecidableEq

/-- Cleanup function returned by the effect (lines 122-124): set the
`isCancelled` flag of the most recently started request. -/
def cancelLast : List (Nat × Bool) → List (Nat × Bool)
  | [] => []
  | [(i, _)] => [(i, true)]
  | p :: q :: rest => p :: cancelLast (q :: rest)

/-- Binding state at mount time. -/
def initBinding : BindingState := ⟨[], 0, initialChartState Int⟩

/-- Step relation of the binding lifecycle. -/
def stepBinding (b : BindingState) : BindingEvent → BindingState
  | .start =>
    { reqs := cancelLast b.reqs ++ [(b.counter, false)]
      counter := b.counter + 1
      published := startLoading b.published }
  | .teardown => { b with reqs := cancelLast b.reqs }
  | .resolve id v =>
    if b.reqs.any (fun p => p.1 == id && !p.2) then
      { b with published := ⟨some v, false, none⟩ }
    else b

/-- Run of a binding instance from mount over a sequence of events. -/
def runBinding (events : List BindingEvent) : BindingState :=
  events.foldl stepBinding initBinding

/-- Invariant: every request except the most recently started one has been
cancelled. -/
def allButLastCancelled : List (Nat × Bool) → Bool
  | [] => true
  | [_] => true
  | p :: q :: rest => p.2 && allButLastCancelled (q :: rest)

/-- All requests cancelled (the post-teardown shape). -/
def allCancelled (l : List (Nat × Bool)) : Bool := l.all (fun p => p.2)

/-- The most recently started request, if any, is not request `id`. -/
def lastReqIsNot (l : List (Nat × Bool)) (id : Nat) : Bool :=
  match l.getLast? with
  | some p => p.1 != id
  | none => true

theorem allCancelled_cancelLast (l : List (Nat × Bool))
    (h : allButLastCancelled l = true) : allCancelled (cancelLast l) = true := by
  induction l with
  | nil => rfl
  | cons p t ih =>
    cases t with
    | nil =>
      rcases p with ⟨i, c⟩
      rfl
    | cons q rest =>
      simp only [allButLastCancelled, Bool.and_eq_true] at h
      simp only [cancelLast, allCancelled, List.all_cons, Bool.and_eq_true]
      exact ⟨h.1, ih h.2⟩

theorem allButLastCancelled_of_allCancelled (l : List (Nat × Bool))
    (h : allCancelled l = true) : allButLastCancelled l = true := by
  induction l with
  | nil => rfl
  | cons p t ih =>
    cases t with
    | nil => rfl
    | cons q rest =>
      simp only [allCancelled, List.all_cons, Bool.and_eq_true] at h
      simp only [allButLastCancelled, Bool.and_eq_true]
      exact ⟨h.1, ih (by simp [allCancelled, List.all_cons, h.2.1, h.2.2])⟩

theorem allButLastCancelled_append_fresh (l : List (Nat × Bool)) (c : Nat)
    (h : allCancelled l = true) :
    allButLastCancelled (l ++ [(c, false)]) = true := by
  induction l with
  | nil => rfl
  | cons p t ih =>
    simp only [allCancelled, List.all_cons, Bool.and_eq_true] at h
    cases t with
    | nil =>
      show (p.2 && allButLastCancelled [(c, false)]) = true
      simp [h.1, allButLastCancelled]
    | cons q rest =>
      show (p.2 && allButLastCancelled (q :: (rest ++ [(c, false)]))) = true
      have hrec := ih h.2
      rw [List.cons_append] at hrec
      simp [h.1, hrec]

theorem allButLastCancelled_step (b : BindingState) (e : BindingEvent)
    (h : allButLastCancelled b.reqs = true) :
    allButLastCancelled (stepBinding b e).reqs = true := by
  cases e with
  | start =>
    exact allButLastCancelled_append_fresh _ _ (allCancelled_cancelLast _ h)
  | teardown =>
    exact allButLastCancelled_of_allCancelled _ (allCancelled_cancelLast _ h)
  | resolve id v =>
    by_cases hc : b.reqs.any (fun p => p.1 == id && !p.2) = true <;>
      simp [stepBinding, hc, h]

theorem allButLastCancelled_run (events : List BindingEvent) :
    allButLastCancelled (runBinding events).reqs = true := by
  suffices h : ∀ b, allButLastCancelled b.reqs = true →
      allButLastCancelled (events.foldl stepBinding b).reqs = true from h initBinding rfl
  induction events with
  | nil => exact fun b hb => hb
  | cons e t ih => exact fun b hb => ih _ (allButLastCancelled_step b e hb)

theorem no_active_match_of_not_last (l : List (Nat × Bool)) (id : Nat)
    (hinv : allButLastCancelled l = true) (hlast : lastReqIsNot l id = true) :
    l.any (fun p => p.1 == id && !p.2) = false := by
  induction l with
  | nil => rfl
  | cons p t ih =>
    cases t with
    | nil =>
      simp only [lastReqIsNot, List.getLast?_singleton, ne_eq, bne_iff_ne] at hlast
      simp [List.any_cons, hlast]
    | cons q rest =>
      simp only [allButLastCancelled, Bool.and_eq_true] at hinv
      have hlast2 : lastReqIsNot (q :: rest) id = true := by
        simpa only [lastReqIsNot, List.getLast?_cons_cons] using hlast
      show ((p.1 == id && !p.2) || (q :: rest).any (fun p => p.1 == id && !p.2)) = false
      rw [ih hinv.2 hlast2]
      simp [hinv.1]

theorem no_active_match_of_allCancelled (l : List (Nat × Bool)) (id : Nat)
    (h : allCancelled l = true) :
    l.any (fun p => p.1 == id && !p.2) = false := by
  rw [List.any_eq_false]
  intro p hp
  have := (List.all_eq_true.mp h) p hp
  simp_all

/-- C3: for a single binding instance, a request that is not the most
recently started one can never update any reachable state (its resolution
is a strict no-op), and a request resolving after teardown updates nothing;
concretely, after starting request 0 (deps `[18]`) and then request 1
(deps `[12]`), resolving 1 and only then the stale 0 publishes the result
of request 1, and the second start really did start a second request. -/
theorem C3_last_started_request_wins :
    (∀ (events : List BindingEvent) (id : Nat) (v : Int),
      lastReqIsNot (runBinding events).reqs id = true →
      stepBinding (runBinding events) (.resolve id v) = runBinding events) ∧
    (∀ (events : List BindingEvent) (id : Nat) (v : Int),
      stepBinding (runBinding (events ++ [.teardown])) (.resolve id v) =
        runBinding (events ++ [.teardown])) ∧
    (runBinding [.start, .start, .resolve 1 12, .resolve 0 18]).published =
      ⟨some 12, false, none⟩ ∧
    (runBinding [.start, .teardown, .resolve 0 7]).published = initialChartState Int ∧
    (runBinding [.start, .start]).counter = 2 := by
  refine ⟨?_, ?_, by decide, by decide, by decide⟩
  · intro events id v hlast
    simp [stepBinding,
      no_active_match_of_not_last _ id (allButLastCancelled_run events) hlast]
  · intro events id v
    have hreqs : (runBinding (events ++ [.teardown])).reqs =
        cancelLast (runBinding events).reqs := by
      simp [runBinding, List.foldl_append, stepBinding]
    have hall : allCancelled (runBinding (events ++ [.teardown])).reqs = true := by
      rw [hreqs]
      exact allCancelled_cancelLast _ (allButLastCancelled_run events)
    simp [stepBinding, no_active_match_of_allCancelled _ id hall]

/-- C3 witness: applying the theorem to the concrete two-request run (the
stale request 0 resolving last is a no-op) and to a run that ends in a
teardown. -/
theorem C3_witness :
    stepBinding (runBinding [.start, .start]) (.resolve 0 99) =
      runBinding [.start, .start] ∧
    stepBinding (runBinding ([.start] ++ [.teardown])) (.resolve 0 99) =
      runBinding ([.start] ++ [.teardown]) :=
  ⟨C3_last_started_request_wins.1 [.start, .start] 0 99 (by decide),
    C3_last_started_request_wins.2.1 [.start] 0 99⟩

end SportSee
